import Mathlib

/-!
Shallow embedding of `lean/components/util/http_client.py` (the `HTTPClient`
facade of the lean-cli repository) and proofs of its specified properties.

Side effects are made explicit: debug logging becomes a list of emitted
message strings, progress-indicator interaction becomes a list of issued
percentage updates plus a stop counter, and file writes become the list of
bytes written.  Python exceptions become explicit outcome values.
-/

namespace HttpClient

/-- Python values that can appear as a `json`/`data`/`params` payload of a
request: the subset of Python objects that `json.dumps` serializes. `null`
is Python `None`. -/
inductive JsonValue where
  | null : JsonValue
  | bool (b : Bool) : JsonValue
  | int (n : Int) : JsonValue
  | str (s : String) : JsonValue
  | arr (xs : List JsonValue) : JsonValue
  | obj (kvs : List (String × JsonValue)) : JsonValue

/-- Python truth of `v is None` for a payload value. -/
def JsonValue.isNone : JsonValue → Bool
  | .null => true
  | _ => false

/-- Python truth of `v == \x7b\x7d` (equality with the empty dict) for a
payload value: only an empty dict compares equal to the empty dict. -/
def JsonValue.isEmptyDict : JsonValue → Bool
  | .obj [] => true
  | _ => false

/-- Indentation used by `json.dumps(..., indent=4)`: `4 * level` spaces. -/
def pad (level : Nat) : String :=
  String.mk (List.replicate (4 * level) ' ')

/-- Lower-case hexadecimal digit, as used by Python in `\uXXXX` escapes. -/
def hexDigit (n : Nat) : Char :=
  if n < 10 then Char.ofNat (48 + n) else Char.ofNat (87 + n)

/-- Four-digit lower-case hexadecimal rendering of `n < 0x10000`. -/
def hex4 (n : Nat) : String :=
  String.mk [hexDigit (n / 4096 % 16), hexDigit (n / 256 % 16),
             hexDigit (n / 16 % 16), hexDigit (n % 16)]

/-- Escape of one character inside a JSON string, following Python
`json.dumps` with its default `ensure_ascii=True`: printable ASCII other
than quote and backslash is kept, the usual two-character escapes are used
for quote, backslash and common control characters, everything else becomes
`\uXXXX` (a surrogate pair beyond the BMP). -/
def escapeChar (c : Char) : String :=
  if c = '"' then "\\\""
  else if c = '\\' then "\\\\"
  else if c = '\n' then "\\n"
  else if c = '\r' then "\\r"
  else if c = '\t' then "\\t"
  else if c = Char.ofNat 8 then "\\b"
  else if c = Char.ofNat 12 then "\\f"
  else if 32 ≤ c.toNat ∧ c.toNat ≤ 126 then String.mk [c]
  else if c.toNat < 65536 then "\\u" ++ hex4 c.toNat
  else
    let n := c.toNat - 65536
    "\\u" ++ hex4 (55296 + n / 1024) ++ "\\u" ++ hex4 (56320 + n % 1024)

/-- JSON string literal for `s`, as produced by Python `json.dumps`. -/
def quoteStr (s : String) : String :=
  "\"" ++ String.join (s.toList.map escapeChar) ++ "\""

mutual

/-- Serialization of a payload value by Python `json.dumps(v, indent=4)`,
at nesting `level`.  Non-empty containers put every item on its own line,
indented one level deeper; empty containers stay on one line. -/
def dumpsVal : JsonValue → Nat → String
  | .null, _ => "null"
  | .bool true, _ => "true"
  | .bool false, _ => "false"
  | .int n, _ => toString n
  | .str s, _ => quoteStr s
  | .arr [], _ => "[]"
  | .arr (x :: xs), level =>
      "[\n" ++ dumpsItems (x :: xs) (level + 1) ++ "\n" ++ pad level ++ "]"
  | .obj [], _ => "\x7b\x7d"
  | .obj (kv :: kvs), level =>
      "\x7b\n" ++ dumpsPairs (kv :: kvs) (level + 1) ++ "\n" ++ pad level ++ "\x7d"

/-- Comma-and-newline separated array items, each indented to `level`. -/
def dumpsItems : List JsonValue → Nat → String
  | [], _ => ""
  | [x], level => pad level ++ dumpsVal x level
  | x :: y :: xs, level =>
      pad level ++ dumpsVal x level ++ ",\n" ++ dumpsItems (y :: xs) level

/-- Comma-and-newline separated object entries `"key": value`, each
indented to `level`. -/
def dumpsPairs : List (String × JsonValue) → Nat → String
  | [], _ => ""
  | [(k, v)], level => pad level ++ quoteStr k ++ ": " ++ dumpsVal v level
  | (k, v) :: p :: kvs, level =>
      pad level ++ quoteStr k ++ ": " ++ dumpsVal v level ++ ",\n" ++
        dumpsPairs (p :: kvs) level

end

/-- The keyword arguments of a request that the facade itself inspects.
`some v` means the key is present with value `v` (so `some JsonValue.null`
is the key explicitly passed as Python `None`); `none` means the key is
absent.  Remaining kwargs are forwarded opaquely and not modelled. -/
structure Kwargs where
  json : Option JsonValue := none
  data : Option JsonValue := none
  params : Option JsonValue := none
  raise_for_status : Option Bool := none
  stream : Bool := false

/-- A transport response: status code, headers and body text.  The streamed
chunk sequence of a body is passed separately to `download_file`. -/
structure Response where
  status_code : Int
  headers : List (String × String) := []
  text : String := ""
  deriving DecidableEq

/-- The `requests.HTTPError` raised by `Response.raise_for_status`; it
carries the response so the caller can inspect status and body. -/
structure HTTPError where
  response : Response
  deriving DecidableEq

/-- Python `str.upper()` restricted to ASCII, which is all the facade uses
(method verbs). -/
def pyUpper (s : String) : String :=
  String.mk (s.toList.map Char.toUpper)

/-- The expression `next((kwargs.get(key) for key in ["json", "data",
"params"] if key in kwargs), None)` from `_log_request`: the value of the
first key among `json`, `data`, `params` that is present in the kwargs, or
`none` when none of the three is present.  A key present with Python `None`
yields `some JsonValue.null`. -/
def firstPresent (kw : Kwargs) : Option JsonValue :=
  match kw.json with
  | some v => some v
  | none =>
    match kw.data with
    | some v => some v
    | none => kw.params

/-- The debug message built by `HTTPClient._log_request`: the line
`--> METHOD URL`, extended with the serialized payload when the scanned
value exists, is not Python `None` and is not the empty dict. -/
def log_request_msg (method url : String) (kw : Kwargs) : String :=
  let message := "--> " ++ pyUpper method ++ " " ++ url
  match firstPresent kw with
  | some v =>
      if v.isNone = false ∧ v.isEmptyDict = false then
        message ++ " with data:\n" ++ dumpsVal v 0
      else message
  | none => message

/-- The debug message built by `HTTPClient.log_unsuccessful_response`. -/
def log_unsuccessful_response_msg (r : Response) : String :=
  let body := if r.text ≠ "" then "body:\n" ++ r.text else "empty body"
  "Request was not successful, status code " ++ toString r.status_code ++ ", " ++ body

/-- Modelled from the spec: `requests.Response.raise_for_status` is part of
the external transport collaborator, not of this repository.  The spec's
interface contract says the unsuccessful-status error is raised exactly
when the response status is outside [200, 300), carrying the response. -/
def Response.raise_for_status (r : Response) : Except HTTPError Unit :=
  if r.status_code < 200 ∨ r.status_code ≥ 300 then Except.error ⟨r⟩
  else Except.ok ()

/-- `HTTPClient._check_response`: the debug messages it emits, and whether
the call raises.  A status outside [200, 300) is always logged; raising is
gated separately by `raise_for_status`. -/
def check_response (r : Response) (rfs : Bool) : List String × Except HTTPError Unit :=
  let logs := if r.status_code < 200 ∨ r.status_code ≥ 300 then
    [log_unsuccessful_response_msg r] else []
  (logs, if rfs then r.raise_for_status else Except.ok ())

/-- The observable result of one `get` / `post` / `request` call: the debug
messages emitted, in order, and either the returned response or the raised
error. -/
structure HttpResult where
  logs : List String
  result : Except HTTPError Response

/-- `HTTPClient.request`: log the request, pop `raise_for_status`
(defaulting to true), dispatch to the transport (whose response is the
`r` argument), check the response, return it. -/
def request (method url : String) (kw : Kwargs) (r : Response) : HttpResult :=
  let reqLog := log_request_msg method url kw
  let rfs := kw.raise_for_status.getD true
  let checked := check_response r rfs
  { logs := reqLog :: checked.1,
    result := match checked.2 with
      | Except.ok _ => Except.ok r
      | Except.error e => Except.error e }

/-- `HTTPClient.get`: the same flow with the verb fixed to GET. -/
def get (url : String) (kw : Kwargs) (r : Response) : HttpResult :=
  let reqLog := log_request_msg "GET" url kw
  let rfs := kw.raise_for_status.getD true
  let checked := check_response r rfs
  { logs := reqLog :: checked.1,
    result := match checked.2 with
      | Except.ok _ => Except.ok r
      | Except.error e => Except.error e }

/-- `HTTPClient.post`: the same flow with the verb fixed to POST. -/
def post (url : String) (kw : Kwargs) (r : Response) : HttpResult :=
  let reqLog := log_request_msg "POST" url kw
  let rfs := kw.raise_for_status.getD true
  let checked := check_response r rfs
  { logs := reqLog :: checked.1,
    result := match checked.2 with
      | Except.ok _ => Except.ok r
      | Except.error e => Except.error e }

/-- Python whitespace stripped by `int(str)` before parsing. -/
def isPySpace (c : Char) : Bool :=
  c = ' ' ∨ c = '\t' ∨ c = '\n' ∨ c = '\r' ∨ c = Char.ofNat 11 ∨ c = Char.ofNat 12

/-- Decimal digit test used by Python `int(str)`. -/
def isPyDigit (c : Char) : Bool :=
  '0' ≤ c ∧ c ≤ '9'

/-- Digits after the first one in a Python integer literal: decimal digits
with single underscores allowed only between digits.  Returns the value
accumulated so far, or `none` when a character is not acceptable. -/
def parseDigits : List Char → Nat → Option Nat
  | [], acc => some acc
  | c :: cs, acc =>
    if isPyDigit c then parseDigits cs (acc * 10 + (c.toNat - 48))
    else if c = '_' then
      match cs with
      | d :: _ => if isPyDigit d then parseDigits cs acc else none
      | [] => none
    else none

/-- A non-empty digit string that must start with a digit. -/
def parseDigitsStart : List Char → Option Nat
  | [] => none
  | c :: cs => if isPyDigit c then parseDigits cs (c.toNat - 48) else none

/-- Python `int(s)` on a decimal string: surrounding whitespace is ignored,
an optional single sign may precede the digits, and anything else raises
`ValueError`, modelled as `none`. -/
def pyInt (s : String) : Option Int :=
  let core := ((s.toList.dropWhile isPySpace).reverse.dropWhile isPySpace).reverse
  match core with
  | '+' :: rest => (parseDigitsStart rest).map Int.ofNat
  | '-' :: rest => (parseDigitsStart rest).map (fun n => -(n : Int))
  | rest => (parseDigitsStart rest).map Int.ofNat

/-- ASCII lower-casing of a header name, as done by the `requests`
response's `CaseInsensitiveDict` (header names are ASCII). -/
def lowerAscii (s : String) : String :=
  String.mk (s.toList.map Char.toLower)

/-- Case-insensitive header lookup, as on the `requests` response's
`CaseInsensitiveDict`. -/
def getHeader (headers : List (String × String)) (name : String) : Option String :=
  (headers.find? (fun p => lowerAscii p.1 = lowerAscii name)).map Prod.snd

/-- The expression `int(response.headers.get("content-length", 0))` from
`download_file`: a missing header gives the integer default `0`; a present
header value is parsed by Python `int`, whose `ValueError` (carrying the
offending string) propagates. -/
def contentLength (r : Response) : Except String Int :=
  match getHeader r.headers "content-length" with
  | none => Except.ok 0
  | some s =>
    match pyInt s with
    | some n => Except.ok n
    | none => Except.error s

/-- One step of the streamed body as seen by the `iter_content` loop:
either a chunk of bytes arrives, or the iteration raises. -/
inductive ChunkItem where
  | chunk (bytes : List Nat) : ChunkItem
  | keyboardInterrupt : ChunkItem
  | readError : ChunkItem
  deriving DecidableEq

/-- Whether a stream item is a plain chunk. -/
def ChunkItem.isChunk : ChunkItem → Bool
  | .chunk _ => true
  | _ => false

/-- The bytes of a chunk item (empty for the exception items). -/
def ChunkItem.bytes : ChunkItem → List Nat
  | .chunk b => b
  | _ => []

/-- How a `download_file` call ends: normal return, a re-raised
`KeyboardInterrupt`, a propagated stream read error, a propagated
`ValueError` from `int()` on the content-length header, or a propagated
`HTTPError` from the initial `get`. -/
inductive DlOutcome where
  | ok : DlOutcome
  | cancelled : DlOutcome
  | readError : DlOutcome
  | valueError (s : String) : DlOutcome
  | httpError (e : HTTPError) : DlOutcome
  deriving DecidableEq

/-- The `for chunk in response.iter_content(...)` loop of `download_file`:
given the total size and whether a progress indicator is active, consume
the stream starting from `written` bytes already written, returning the
bytes written by the loop, the percentage updates issued (each is
`written_bytes / total_size_bytes * 100`), and how the loop ended. -/
def downloadLoop (total : Int) (hasProgress : Bool) :
    List ChunkItem → Nat → List Nat × List ℚ × DlOutcome
  | [], _ => ([], [], DlOutcome.ok)
  | ChunkItem.chunk b :: rest, written =>
      let w := written + b.length
      let r := downloadLoop total hasProgress rest w
      (b ++ r.1,
       (if hasProgress then [((w : ℚ) / (total : ℚ)) * 100] else []) ++ r.2.1,
       r.2.2)
  | ChunkItem.keyboardInterrupt :: _, _ => ([], [], DlOutcome.cancelled)
  | ChunkItem.readError :: _, _ => ([], [], DlOutcome.readError)

/-- The observable behaviour of one `download_file` call: debug messages,
whether a progress indicator was acquired from the logger, the percentage
updates issued, how many times the indicator was stopped, the bytes written
to the output path (`none` when the file was never opened), whether the
file handle was released, and how the call ended. -/
structure Download where
  logs : List String
  progressAcquired : Bool
  updates : List ℚ
  progressStops : Nat
  fileBytes : Option (List Nat)
  fileClosed : Bool
  outcome : DlOutcome

/-- The streaming phase of `HTTPClient.download_file`, reached once the
`get` succeeded and the content-length parsed to `total`: a progress
indicator is acquired exactly when the total is positive, the chunk loop
writes to the opened file, and the `with` statement releases the file
handle on every exit from the loop.  The indicator is stopped once on
normal completion and once on `KeyboardInterrupt`, but not on other
exceptions escaping the loop. -/
def download_stream (dlLogs : List String) (total : Int) (body : List ChunkItem) : Download :=
  let hasProgress := decide (total > 0)
  let res := downloadLoop total hasProgress body 0
  let stops : Nat :=
    match res.2.2 with
    | DlOutcome.ok => if hasProgress then 1 else 0
    | DlOutcome.cancelled => if hasProgress then 1 else 0
    | _ => 0
  { logs := dlLogs, progressAcquired := hasProgress, updates := res.2.1,
    progressStops := stops, fileBytes := some res.1, fileClosed := true,
    outcome := res.2.2 }

/-- `HTTPClient.download_file`: a streamed `get` (default
`raise_for_status`, so an unsuccessful status raises), content-length
parsing, and then the streaming phase `download_stream`. -/
def download_file (url : String) (r : Response) (body : List ChunkItem) : Download :=
  let reqLog := log_request_msg "GET" url { stream := true }
  let checked := check_response r true
  match checked.2 with
  | Except.error e =>
      { logs := reqLog :: checked.1, progressAcquired := false, updates := [],
        progressStops := 0, fileBytes := none, fileClosed := true,
        outcome := DlOutcome.httpError e }
  | Except.ok _ =>
    match contentLength r with
    | Except.error s =>
        { logs := reqLog :: checked.1, progressAcquired := false, updates := [],
          progressStops := 0, fileBytes := none, fileClosed := true,
          outcome := DlOutcome.valueError s }
    | Except.ok total =>
        download_stream (reqLog :: checked.1) total body

/-- Modelled from the spec, for comparison with `log_request_msg`: the
claim's reading of request logging, in which the serialized payload is
whichever of `json`, `data`, `params` is present AND non-empty, checked in
that priority order, and the payload part is omitted only when all three
are empty or absent. -/
def spec_log_request_msg (method url : String) (kw : Kwargs) : String :=
  let message := "--> " ++ pyUpper method ++ " " ++ url
  let ok := fun (v : JsonValue) => v.isNone = false ∧ v.isEmptyDict = false
  let picked : Option JsonValue :=
    match kw.json with
    | some v =>
      if ok v then some v else
        match kw.data with
        | some w =>
          if ok w then some w else
            match kw.params with
            | some u => if ok u then some u else none
            | none => none
        | none =>
          match kw.params with
          | some u => if ok u then some u else none
          | none => none
    | none =>
      match kw.data with
      | some w =>
        if ok w then some w else
          match kw.params with
          | some u => if ok u then some u else none
          | none => none
      | none =>
        match kw.params with
        | some u => if ok u then some u else none
        | none => none
  match picked with
  | some v => message ++ " with data:\n" ++ dumpsVal v 0
  | none => message

/-- A concrete not-found response used to instantiate the request-path
theorems. -/
def r404 : Response := { status_code := 404, text := "Not Found" }

/-- A concrete server-error response with an empty body. -/
def r500 : Response := { status_code := 500 }

/-- A concrete created response. -/
def r201 : Response := { status_code := 201, text := "created" }

/-- A concrete response whose content-length header is not numeric. -/
def rBadLength : Response :=
  { status_code := 200, headers := [("content-length", "abc")] }

/-- A concrete streamed response announcing 1024 bytes (with a
differently-cased header name, exercising the case-insensitive lookup). -/
def r1024 : Response :=
  { status_code := 200, headers := [("Content-Length", "1024")] }

/-- Kwargs in which `json` is present but empty while `data` is present and
non-empty, separating the code's key-presence scan from the claim's
present-and-non-empty scan. -/
def kwPrecedence : Kwargs :=
  { json := some (JsonValue.obj []),
    data := some (JsonValue.obj [("a", JsonValue.int 1)]) }

theorem check_response_2xx (r : Response) (rfs : Bool)
    (h1 : 200 ≤ r.status_code) (h2 : r.status_code < 300) :
    check_response r rfs = ([], Except.ok ()) := by
  have hc : ¬(r.status_code < 200 ∨ r.status_code ≥ 300) := by omega
  simp [check_response, Response.raise_for_status, hc]

theorem check_response_fail_raise (r : Response)
    (hst : r.status_code < 200 ∨ r.status_code ≥ 300) :
    check_response r true = ([log_unsuccessful_response_msg r], Except.error ⟨r⟩) := by
  simp [check_response, Response.raise_for_status, eq_true hst]

theorem check_response_fail_noraise (r : Response)
    (hst : r.status_code < 200 ∨ r.status_code ≥ 300) :
    check_response r false = ([log_unsuccessful_response_msg r], Except.ok ()) := by
  simp [check_response, eq_true hst]

/-- Claim C1: for every request made through `get`, `post` or `request`
whose response status lies outside [200, 300) and whose
`raise_for_status` option is absent or true, the unsuccessful-response
debug log is emitted and an error carrying that response is raised to the
caller. -/
theorem c1_unsuccessful_logs_and_raises (method url : String) (kw : Kwargs)
    (r : Response) (hst : r.status_code < 200 ∨ r.status_code ≥ 300)
    (hrfs : kw.raise_for_status = none ∨ kw.raise_for_status = some true) :
    request method url kw r =
      { logs := [log_request_msg method url kw, log_unsuccessful_response_msg r],
        result := Except.error ⟨r⟩ } ∧
    get url kw r =
      { logs := [log_request_msg "GET" url kw, log_unsuccessful_response_msg r],
        result := Except.error ⟨r⟩ } ∧
    post url kw r =
      { logs := [log_request_msg "POST" url kw, log_unsuccessful_response_msg r],
        result := Except.error ⟨r⟩ } := by
  have hd : kw.raise_for_status.getD true = true := by
    rcases hrfs with h | h <;> simp [h]
  refine ⟨?_, ?_, ?_⟩ <;>
    simp [request, get, post, hd, check_response_fail_raise r hst]

/-- Witness for C1 at a GET of a 404 response with default kwargs. -/
theorem c1_witness :
    request "get" "https://example.com" {} r404 =
      { logs := [log_request_msg "get" "https://example.com" {},
                 log_unsuccessful_response_msg r404],
        result := Except.error ⟨r404⟩ } ∧
    get "https://example.com" {} r404 =
      { logs := [log_request_msg "GET" "https://example.com" {},
                 log_unsuccessful_response_msg r404],
        result := Except.error ⟨r404⟩ } ∧
    post "https://example.com" {} r404 =
      { logs := [log_request_msg "POST" "https://example.com" {},
                 log_unsuccessful_response_msg r404],
        result := Except.error ⟨r404⟩ } :=
  c1_unsuccessful_logs_and_raises "get" "https://example.com" {} r404
    (by decide) (Or.inl rfl)

/-- Claim C3: for every request made through `get`, `post` or `request`
whose response status lies outside [200, 300) and whose
`raise_for_status` option is explicitly false, the unsuccessful-response
debug log is emitted, no error is raised, and the response is returned
unchanged. -/
theorem c3_unsuccessful_suppressed (method url : String) (kw : Kwargs)
    (r : Response) (hst : r.status_code < 200 ∨ r.status_code ≥ 300)
    (hrfs : kw.raise_for_status = some false) :
    request method url kw r =
      { logs := [log_request_msg method url kw, log_unsuccessful_response_msg r],
        result := Except.ok r } ∧
    get url kw r =
      { logs := [log_request_msg "GET" url kw, log_unsuccessful_response_msg r],
        result := Except.ok r } ∧
    post url kw r =
      { logs := [log_request_msg "POST" url kw, log_unsuccessful_response_msg r],
        result := Except.ok r } := by
  have hd : kw.raise_for_status.getD true = false := by simp [hrfs]
  refine ⟨?_, ?_, ?_⟩ <;>
    simp [request, get, post, hd, check_response_fail_noraise r hst]

/-- Witness for C3 at a 500 response with `raise_for_status := false`. -/
theorem c3_witness :
    request "delete" "https://example.com" { raise_for_status := some false } r500 =
      { logs := [log_request_msg "delete" "https://example.com"
                   { raise_for_status := some false },
                 log_unsuccessful_response_msg r500],
        result := Except.ok r500 } ∧
    get "https://example.com" { raise_for_status := some false } r500 =
      { logs := [log_request_msg "GET" "https://example.com"
                   { raise_for_status := some false },
                 log_unsuccessful_response_msg r500],
        result := Except.ok r500 } ∧
    post "https://example.com" { raise_for_status := some false } r500 =
      { logs := [log_request_msg "POST" "https://example.com"
                   { raise_for_status := some false },
                 log_unsuccessful_response_msg r500],
        result := Except.ok r500 } :=
  c3_unsuccessful_suppressed "delete" "https://example.com"
    { raise_for_status := some false } r500 (by decide) rfl

/-- Claim C4: for every request made through `get`, `post` or `request`
whose response status lies in [200, 300), no unsuccessful-response log is
emitted and no error is raised, for both values of the `raise_for_status`
option (the kwargs are universally quantified). -/
theorem c4_successful_silent (method url : String) (kw : Kwargs)
    (r : Response) (h1 : 200 ≤ r.status_code) (h2 : r.status_code < 300) :
    request method url kw r =
      { logs := [log_request_msg method url kw], result := Except.ok r } ∧
    get url kw r =
      { logs := [log_request_msg "GET" url kw], result := Except.ok r } ∧
    post url kw r =
      { logs := [log_request_msg "POST" url kw], result := Except.ok r } := by
  refine ⟨?_, ?_, ?_⟩ <;>
    simp [request, get, post, check_response_2xx r _ h1 h2]

/-- Witness for C4 at a 201 response, once with `raise_for_status` absent
and once with it explicitly false. -/
theorem c4_witness :
    (request "put" "https://example.com" {} r201 =
      { logs := [log_request_msg "put" "https://example.com" {}],
        result := Except.ok r201 } ∧
     get "https://example.com" {} r201 =
      { logs := [log_request_msg "GET" "https://example.com" {}],
        result := Except.ok r201 } ∧
     post "https://example.com" {} r201 =
      { logs := [log_request_msg "POST" "https://example.com" {}],
        result := Except.ok r201 }) ∧
    (request "put" "https://example.com" { raise_for_status := some false } r201 =
      { logs := [log_request_msg "put" "https://example.com"
                   { raise_for_status := some false }],
        result := Except.ok r201 } ∧
     get "https://example.com" { raise_for_status := some false } r201 =
      { logs := [log_request_msg "GET" "https://example.com"
                   { raise_for_status := some false }],
        result := Except.ok r201 } ∧
     post "https://example.com" { raise_for_status := some false } r201 =
      { logs := [log_request_msg "POST" "https://example.com"
                   { raise_for_status := some false }],
        result := Except.ok r201 }) :=
  ⟨c4_successful_silent "put" "https://example.com" {} r201 (by decide) (by decide),
   c4_successful_silent "put" "https://example.com" { raise_for_status := some false }
     r201 (by decide) (by decide)⟩

/-- Claim C9: `log_unsuccessful_response` on a response with empty body
text emits the debug message with the literal marker "empty body"; with
non-empty body text it emits the message with "body:" and a newline
followed by that text; both carry the response's status code. -/
theorem c9_unsuccessful_message_format (r : Response) :
    (r.text = "" →
      log_unsuccessful_response_msg r =
        "Request was not successful, status code " ++ toString r.status_code ++
          ", empty body") ∧
    (r.text ≠ "" →
      log_unsuccessful_response_msg r =
        "Request was not successful, status code " ++ toString r.status_code ++
          ", body:\n" ++ r.text) := by
  have hbody : ∀ t : String, ", " ++ ("body:\n" ++ t) = ", body:\n" ++ t := by
    intro t; rw [← String.append_assoc]; rfl
  constructor <;> intro h <;>
    simp [log_unsuccessful_response_msg, h, String.append_assoc, hbody]

/-- Witness for C9 at an empty-body 500 response and a non-empty-body 404
response. -/
theorem c9_witness :
    log_unsuccessful_response_msg r500 =
      "Request was not successful, status code " ++ toString r500.status_code ++
        ", empty body" ∧
    log_unsuccessful_response_msg r404 =
      "Request was not successful, status code " ++ toString r404.status_code ++
        ", body:\n" ++ r404.text :=
  ⟨(c9_unsuccessful_message_format r500).1 rfl,
   (c9_unsuccessful_message_format r404).2 (by decide)⟩

/-- Claim C5 counterexample: with `json` present but equal to the empty
dict and `data` present and non-empty, the claim's scan (first key present
AND non-empty, so `data` here) would log the payload, but the code's scan
picks `json` by mere presence, finds it empty, and omits the payload part
entirely — even though not all three options are empty or absent. -/
theorem c5_counterexample :
    log_request_msg "GET" "https://example.com" kwPrecedence ≠
      spec_log_request_msg "GET" "https://example.com" kwPrecedence ∧
    log_request_msg "GET" "https://example.com" kwPrecedence =
      "--> GET https://example.com" ∧
    spec_log_request_msg "GET" "https://example.com" kwPrecedence =
      "--> GET https://example.com with data:\n\x7b\n    \"a\": 1\n\x7d" :=
  ⟨by decide, by decide, by decide⟩

/-- Claim C5 as amended: the request log line is `--> METHOD URL`; the
payload part serializes the first of `json`, `data`, `params` that is
present in the kwargs (scanned by presence alone, in that order), and is
omitted when none of the three is present or when the first present one's
value is Python `None` or the empty dict. -/
theorem c5_request_log_format (method url : String) (kw : Kwargs) :
    (firstPresent kw = none →
      log_request_msg method url kw = "--> " ++ pyUpper method ++ " " ++ url) ∧
    (∀ v, firstPresent kw = some v →
      (v.isNone = true ∨ v.isEmptyDict = true) →
      log_request_msg method url kw = "--> " ++ pyUpper method ++ " " ++ url) ∧
    (∀ v, firstPresent kw = some v → v.isNone = false → v.isEmptyDict = false →
      log_request_msg method url kw =
        "--> " ++ pyUpper method ++ " " ++ url ++ " with data:\n" ++ dumpsVal v 0) := by
  refine ⟨fun h => ?_, fun v hv hne => ?_, fun v hv h1 h2 => ?_⟩
  · simp [log_request_msg, h]
  · rcases hne with h | h <;> simp [log_request_msg, hv, h]
  · simp [log_request_msg, hv, h1, h2, String.append_assoc]

/-- Witness for C5 as amended, at kwargs carrying a non-empty `json`
payload. -/
theorem c5_witness :
    log_request_msg "get" "https://example.com"
        { json := some (JsonValue.obj [("a", JsonValue.int 1)]) } =
      "--> " ++ pyUpper "get" ++ " " ++ "https://example.com" ++ " with data:\n" ++
        dumpsVal (JsonValue.obj [("a", JsonValue.int 1)]) 0 :=
  (c5_request_log_format "get" "https://example.com"
      { json := some (JsonValue.obj [("a", JsonValue.int 1)]) }).2.2
    (JsonValue.obj [("a", JsonValue.int 1)]) rfl rfl rfl

theorem downloadLoop_chunks (total : Int) (hp : Bool) (items : List ChunkItem)
    (h : ∀ x ∈ items, x.isChunk = true) :
    ∀ w : Nat,
      (downloadLoop total hp items w).1 = items.flatMap ChunkItem.bytes ∧
      (downloadLoop total hp items w).2.2 = DlOutcome.ok := by
  induction items with
  | nil => intro w; simp [downloadLoop]
  | cons x items ih =>
    intro w
    cases x with
    | chunk b =>
      have ih2 := ih (fun y hy => h y (List.mem_cons_of_mem _ hy)) (w + b.length)
      simp [downloadLoop, ih2.1, ih2.2, ChunkItem.bytes]
    | keyboardInterrupt =>
      have hx := h _ (List.mem_cons_self _ _)
      simp [ChunkItem.isChunk] at hx
    | readError =>
      have hx := h _ (List.mem_cons_self _ _)
      simp [ChunkItem.isChunk] at hx

theorem downloadLoop_interrupted (total : Int) (hp : Bool)
    (rest : List ChunkItem) (before : List ChunkItem)
    (h : ∀ x ∈ before, x.isChunk = true) :
    ∀ w : Nat,
      (downloadLoop total hp (before ++ ChunkItem.keyboardInterrupt :: rest) w).1 =
        before.flatMap ChunkItem.bytes ∧
      (downloadLoop total hp (before ++ ChunkItem.keyboardInterrupt :: rest) w).2.2 =
        DlOutcome.cancelled := by
  induction before with
  | nil => intro w; simp [downloadLoop]
  | cons x items ih =>
    intro w
    cases x with
    | chunk b =>
      have ih2 := ih (fun y hy => h y (List.mem_cons_of_mem _ hy)) (w + b.length)
      simp [downloadLoop, ih2.1, ih2.2, ChunkItem.bytes]
    | keyboardInterrupt =>
      have hx := h _ (List.mem_cons_self _ _)
      simp [ChunkItem.isChunk] at hx
    | readError =>
      have hx := h _ (List.mem_cons_self _ _)
      simp [ChunkItem.isChunk] at hx

theorem downloadLoop_read_failed (total : Int) (hp : Bool)
    (rest : List ChunkItem) (before : List ChunkItem)
    (h : ∀ x ∈ before, x.isChunk = true) :
    ∀ w : Nat,
      (downloadLoop total hp (before ++ ChunkItem.readError :: rest) w).1 =
        before.flatMap ChunkItem.bytes ∧
      (downloadLoop total hp (before ++ ChunkItem.readError :: rest) w).2.2 =
        DlOutcome.readError := by
  induction before with
  | nil => intro w; simp [downloadLoop]
  | cons x items ih =>
    intro w
    cases x with
    | chunk b =>
      have ih2 := ih (fun y hy => h y (List.mem_cons_of_mem _ hy)) (w + b.length)
      simp [downloadLoop, ih2.1, ih2.2, ChunkItem.bytes]
    | keyboardInterrupt =>
      have hx := h _ (List.mem_cons_self _ _)
      simp [ChunkItem.isChunk] at hx
    | readError =>
      have hx := h _ (List.mem_cons_self _ _)
      simp [ChunkItem.isChunk] at hx

theorem download_file_2xx (url : String) (r : Response) (body : List ChunkItem)
    (total : Int) (h1 : 200 ≤ r.status_code) (h2 : r.status_code < 300)
    (ht : contentLength r = Except.ok total) :
    download_file url r body =
      download_stream [log_request_msg "GET" url { stream := true }] total body := by
  simp [download_file, check_response_2xx r true h1 h2, ht]

/-- Claim C2 counterexample: with the header `content-length: abc`, the
value is not treated as 0 — `int("abc")` raises `ValueError`, the download
does not proceed and nothing is written. -/
theorem c2_counterexample :
    (download_file "https://example.com/f" rBadLength [ChunkItem.chunk [1, 2]]).outcome =
      DlOutcome.valueError "abc" ∧
    (download_file "https://example.com/f" rBadLength [ChunkItem.chunk [1, 2]]).outcome ≠
      DlOutcome.ok ∧
    (download_file "https://example.com/f" rBadLength [ChunkItem.chunk [1, 2]]).fileBytes =
      none :=
  ⟨by decide, by decide, by decide⟩

/-- Claim C2 as amended: a missing content-length header is treated as a
total size of 0 (unknown) and the download proceeds without error, but a
present non-numeric value raises a `ValueError` from `int()` that
propagates to the caller, before any file is opened. -/
theorem c2_content_length_parsing (url : String) (r : Response)
    (body : List ChunkItem) (h1 : 200 ≤ r.status_code) (h2 : r.status_code < 300) :
    (getHeader r.headers "content-length" = none →
      contentLength r = Except.ok 0 ∧
      ((∀ x ∈ body, x.isChunk = true) →
        (download_file url r body).outcome = DlOutcome.ok ∧
        (download_file url r body).fileBytes = some (body.flatMap ChunkItem.bytes))) ∧
    (∀ s, getHeader r.headers "content-length" = some s → pyInt s = none →
      (download_file url r body).outcome = DlOutcome.valueError s ∧
      (download_file url r body).fileBytes = none) := by
  constructor
  · intro hh
    have ht : contentLength r = Except.ok 0 := by simp [contentLength, hh]
    refine ⟨ht, fun hb => ?_⟩
    have hloop := downloadLoop_chunks 0 false body hb 0
    rw [download_file_2xx url r body 0 h1 h2 ht]
    simp [download_stream, hloop.1, hloop.2]
  · intro s hh hp
    have ht : contentLength r = Except.error s := by simp [contentLength, hh, hp]
    simp [download_file, check_response_2xx r true h1 h2, ht]

/-- Witness for C2 as amended, at a 200 response with no headers. -/
theorem c2_witness :
    contentLength { status_code := 200 } = Except.ok 0 ∧
    (download_file "https://example.com/f" { status_code := 200 }
        [ChunkItem.chunk [5, 6]]).outcome = DlOutcome.ok ∧
    (download_file "https://example.com/f" { status_code := 200 }
        [ChunkItem.chunk [5, 6]]).fileBytes =
      some ([ChunkItem.chunk [5, 6]].flatMap ChunkItem.bytes) := by
  have h := (c2_content_length_parsing "https://example.com/f" { status_code := 200 }
      [ChunkItem.chunk [5, 6]] (by decide) (by decide)).1 rfl
  exact ⟨h.1, (h.2 (by decide)).1, (h.2 (by decide)).2⟩

/-- Claim C8: when the content-length header is absent or its value parses
to 0, no progress indicator is acquired from the logger, and the full
streamed body is still written to the output path. -/
theorem c8_unknown_total_no_progress (url : String) (r : Response)
    (body : List ChunkItem) (h1 : 200 ≤ r.status_code) (h2 : r.status_code < 300)
    (ht : contentLength r = Except.ok 0) (hb : ∀ x ∈ body, x.isChunk = true) :
    (download_file url r body).progressAcquired = false ∧
    (download_file url r body).fileBytes = some (body.flatMap ChunkItem.bytes) ∧
    (download_file url r body).outcome = DlOutcome.ok := by
  have hloop := downloadLoop_chunks 0 false body hb 0
  rw [download_file_2xx url r body 0 h1 h2 ht]
  simp [download_stream, hloop.1, hloop.2]

/-- Witness for C8 at a 200 response with header `content-length: 0`. -/
theorem c8_witness :
    (download_file "https://example.com/f"
        { status_code := 200, headers := [("content-length", "0")] }
        [ChunkItem.chunk [7], ChunkItem.chunk [8, 9]]).progressAcquired = false ∧
    (download_file "https://example.com/f"
        { status_code := 200, headers := [("content-length", "0")] }
        [ChunkItem.chunk [7], ChunkItem.chunk [8, 9]]).fileBytes =
      some ([ChunkItem.chunk [7], ChunkItem.chunk [8, 9]].flatMap ChunkItem.bytes) ∧
    (download_file "https://example.com/f"
        { status_code := 200, headers := [("content-length", "0")] }
        [ChunkItem.chunk [7], ChunkItem.chunk [8, 9]]).outcome = DlOutcome.ok :=
  c8_unknown_total_no_progress "https://example.com/f"
    { status_code := 200, headers := [("content-length", "0")] }
    [ChunkItem.chunk [7], ChunkItem.chunk [8, 9]]
    (by decide) (by decide) rfl (by decide)

/-- Claim C6: a download whose response announces `content-length: 1024`
and whose body arrives in two 512-byte chunks issues exactly the two
progress updates 50 and 100 percent, and writes the concatenation of the
two chunks, in order, to the output path. -/
theorem c6_two_chunk_progress (url : String) (r : Response) (c1 c2 : List Nat)
    (h1 : 200 ≤ r.status_code) (h2 : r.status_code < 300)
    (hh : getHeader r.headers "content-length" = some "1024")
    (hc1 : c1.length = 512) (hc2 : c2.length = 512) :
    (download_file url r [ChunkItem.chunk c1, ChunkItem.chunk c2]).updates =
      [50, 100] ∧
    (download_file url r [ChunkItem.chunk c1, ChunkItem.chunk c2]).fileBytes =
      some (c1 ++ c2) ∧
    (download_file url r [ChunkItem.chunk c1, ChunkItem.chunk c2]).progressAcquired =
      true ∧
    (download_file url r [ChunkItem.chunk c1, ChunkItem.chunk c2]).outcome =
      DlOutcome.ok := by
  have hp : pyInt "1024" = some 1024 := by decide
  have ht : contentLength r = Except.ok 1024 := by simp [contentLength, hh, hp]
  have hd : decide ((1024 : Int) > 0) = true := by decide
  rw [download_file_2xx url r _ 1024 h1 h2 ht]
  simp [download_stream, downloadLoop, hc1, hc2, hd]
  norm_num

/-- Witness for C6 at two concrete 512-byte chunks. -/
theorem c6_witness :
    (download_file "https://example.com/f" r1024
        [ChunkItem.chunk (List.replicate 512 7),
         ChunkItem.chunk (List.replicate 512 9)]).updates = [50, 100] ∧
    (download_file "https://example.com/f" r1024
        [ChunkItem.chunk (List.replicate 512 7),
         ChunkItem.chunk (List.replicate 512 9)]).fileBytes =
      some (List.replicate 512 7 ++ List.replicate 512 9) ∧
    (download_file "https://example.com/f" r1024
        [ChunkItem.chunk (List.replicate 512 7),
         ChunkItem.chunk (List.replicate 512 9)]).progressAcquired = true ∧
    (download_file "https://example.com/f" r1024
        [ChunkItem.chunk (List.replicate 512 7),
         ChunkItem.chunk (List.replicate 512 9)]).outcome = DlOutcome.ok :=
  c6_two_chunk_progress "https://example.com/f" r1024
    (List.replicate 512 7) (List.replicate 512 9)
    (by decide) (by decide) rfl (by rw [List.length_replicate]) (by rw [List.length_replicate])

/-- Claim C7: a download interrupted mid-stream by `KeyboardInterrupt`
stops the progress indicator exactly once when one was acquired (and not
at all otherwise), re-raises the interrupt, and leaves on disk exactly the
bytes written before the interruption, with the file handle released. -/
theorem c7_cancellation (url : String) (r : Response) (total : Int)
    (before rest : List ChunkItem)
    (h1 : 200 ≤ r.status_code) (h2 : r.status_code < 300)
    (ht : contentLength r = Except.ok total)
    (hb : ∀ x ∈ before, x.isChunk = true) :
    (download_file url r (before ++ ChunkItem.keyboardInterrupt :: rest)).outcome =
      DlOutcome.cancelled ∧
    (download_file url r (before ++ ChunkItem.keyboardInterrupt :: rest)).fileBytes =
      some (before.flatMap ChunkItem.bytes) ∧
    (download_file url r (before ++ ChunkItem.keyboardInterrupt :: rest)).progressStops =
      (if (download_file url r
            (before ++ ChunkItem.keyboardInterrupt :: rest)).progressAcquired = true
        then 1 else 0) ∧
    (download_file url r (before ++ ChunkItem.keyboardInterrupt :: rest)).fileClosed =
      true := by
  have hloop := downloadLoop_interrupted total (decide (total > 0)) rest before hb 0
  rw [download_file_2xx url r _ total h1 h2 ht]
  simp [download_stream, hloop.1, hloop.2]

/-- Witness for C7: interrupt after one 2-byte chunk of an announced
1024-byte download. -/
theorem c7_witness :
    (download_file "https://example.com/f" r1024
        ([ChunkItem.chunk [1, 2]] ++
          ChunkItem.keyboardInterrupt :: [ChunkItem.chunk [3]])).outcome =
      DlOutcome.cancelled ∧
    (download_file "https://example.com/f" r1024
        ([ChunkItem.chunk [1, 2]] ++
          ChunkItem.keyboardInterrupt :: [ChunkItem.chunk [3]])).fileBytes =
      some ([ChunkItem.chunk [1, 2]].flatMap ChunkItem.bytes) ∧
    (download_file "https://example.com/f" r1024
        ([ChunkItem.chunk [1, 2]] ++
          ChunkItem.keyboardInterrupt :: [ChunkItem.chunk [3]])).progressStops =
      (if (download_file "https://example.com/f" r1024
            ([ChunkItem.chunk [1, 2]] ++
              ChunkItem.keyboardInterrupt :: [ChunkItem.chunk [3]])).progressAcquired =
          true then 1 else 0) ∧
    (download_file "https://example.com/f" r1024
        ([ChunkItem.chunk [1, 2]] ++
          ChunkItem.keyboardInterrupt :: [ChunkItem.chunk [3]])).fileClosed = true :=
  c7_cancellation "https://example.com/f" r1024 1024
    [ChunkItem.chunk [1, 2]] [ChunkItem.chunk [3]]
    (by decide) (by decide) rfl (by decide)

/-- Claim C10: when an exception other than `KeyboardInterrupt` escapes
the chunk loop (a stream read error), the file handle is released and the
exception propagates, but the progress indicator is never stopped; a stop
is only ever issued when the download ends normally or is cancelled. -/
theorem c10_stream_error_no_stop (url : String) (r : Response) (total : Int)
    (before rest : List ChunkItem)
    (h1 : 200 ≤ r.status_code) (h2 : r.status_code < 300)
    (ht : contentLength r = Except.ok total)
    (hb : ∀ x ∈ before, x.isChunk = true) :
    ((download_file url r (before ++ ChunkItem.readError :: rest)).outcome =
        DlOutcome.readError ∧
     (download_file url r (before ++ ChunkItem.readError :: rest)).progressStops = 0 ∧
     (download_file url r (before ++ ChunkItem.readError :: rest)).fileClosed = true ∧
     (download_file url r (before ++ ChunkItem.readError :: rest)).fileBytes =
        some (before.flatMap ChunkItem.bytes)) ∧
    (∀ body : List ChunkItem, 0 < (download_file url r body).progressStops →
      (download_file url r body).outcome = DlOutcome.ok ∨
      (download_file url r body).outcome = DlOutcome.cancelled) := by
  constructor
  · have hloop := downloadLoop_read_failed total (decide (total > 0)) rest before hb 0
    rw [download_file_2xx url r _ total h1 h2 ht]
    simp [download_stream, hloop.1, hloop.2]
  · intro body hpos
    rw [download_file_2xx url r body total h1 h2 ht] at hpos ⊢
    simp only [download_stream] at hpos ⊢
    rcases hoc : (downloadLoop total (decide (total > 0)) body 0).2.2 with _ | _ | _ | s | e <;>
      simp [hoc] at hpos ⊢

/-- Witness for C10: a read error after one chunk of an announced
1024-byte download, plus the only-on-ok-or-cancel property applied at an
uninterrupted body. -/
theorem c10_witness :
    ((download_file "https://example.com/f" r1024
        ([ChunkItem.chunk [1, 2]] ++
          ChunkItem.readError :: [ChunkItem.chunk [3]])).outcome =
        DlOutcome.readError ∧
     (download_file "https://example.com/f" r1024
        ([ChunkItem.chunk [1, 2]] ++
          ChunkItem.readError :: [ChunkItem.chunk [3]])).progressStops = 0 ∧
     (download_file "https://example.com/f" r1024
        ([ChunkItem.chunk [1, 2]] ++
          ChunkItem.readError :: [ChunkItem.chunk [3]])).fileClosed = true ∧
     (download_file "https://example.com/f" r1024
        ([ChunkItem.chunk [1, 2]] ++
          ChunkItem.readError :: [ChunkItem.chunk [3]])).fileBytes =
        some ([ChunkItem.chunk [1, 2]].flatMap ChunkItem.bytes)) ∧
    (∀ body : List ChunkItem,
      0 < (download_file "https://example.com/f" r1024 body).progressStops →
      (download_file "https://example.com/f" r1024 body).outcome = DlOutcome.ok ∨
      (download_file "https://example.com/f" r1024 body).outcome =
        DlOutcome.cancelled) :=
  c10_stream_error_no_stop "https://example.com/f" r1024 1024
    [ChunkItem.chunk [1, 2]] [ChunkItem.chunk [3]]
    (by decide) (by decide) rfl (by decide)

end HttpClient
